import Mathlib

/-!
Shallow embedding of the `promised-sqlite3` wrapper library: the
`AsyncDatabase` class of `src/index.ts` and the historical `PromisedDatabase`
variant, together with their SQL-building helpers (`sqlifyValue`,
`getKeysValues`, `sqlInsertParseObject`) and the promise/callback adapter
logic of `run`, `get`, `all`, `each`, `exec`, `open`, `close`, `insert`,
`replace` and `insertMany`.

The engine (node-sqlite3) is external: each method is modelled as a function
of the handle state, the method arguments, and the engine's callback
behaviour (its response, or for `each` the sequence of row events followed by
a completion event).  A method's result records the value the returned
promise settles with (first `resolve`/`reject` wins, later calls are no-ops,
exactly as for a JS promise) and the request issued to the engine, if any.
-/

/-- JavaScript values, as far as the wrapper inspects them: `undefined`,
`null`, booleans, numbers, strings, arrays, plain objects (ordered
key/value fields) and `Map` objects (ordered entries). -/
inductive JSValue where
  | undefined
  | null
  | bool (b : Bool)
  | num (n : Int)
  | str (s : String)
  | arr (xs : List JSValue)
  | obj (fields : List (String × JSValue))
  | mapObj (entries : List (String × JSValue))

/-- Values rejected/thrown in the wrapper: `TypeError`s and `Error`s built by
the wrapper itself, engine-reported errors, and arbitrary values thrown by a
caller-supplied callback. -/
inductive JSErr where
  | typeErr (msg : String)
  | err (msg : String)
  | thrown (v : JSValue)

/-- The global helper `error_dbNotOpened()` of the `PromisedDatabase`
source: `new Error("The database is not open.")`. -/
def error_dbNotOpened : JSErr := .err "The database is not open."

mutual

/-- Default textual representation of a value, as produced by JS string
interpolation / `Array.prototype.join` (an array stringifies to its
comma-joined elements). -/
def jsToString : JSValue → String
  | .undefined => "undefined"
  | .null => "null"
  | .bool b => if b then "true" else "false"
  | .num n => toString n
  | .str s => s
  | .arr xs => String.intercalate "," (jsToStringList xs)
  | .obj _ => "[object Object]"
  | .mapObj _ => "[object Map]"

/-- Pointwise `jsToString` over a list of values. -/
def jsToStringList : List JSValue → List String
  | [] => []
  | x :: xs => jsToString x :: jsToStringList xs

end

/-- The helper `sqlifyValue(o)`: `o == undefined` (loose equality, matching
both `undefined` and `null`) gives `"NULL"`; strings are wrapped in double
quotes; any other value is used as-is, i.e. via its default textual
representation once spliced into the SQL string. -/
def sqlifyValue (o : JSValue) : String :=
  match o with
  | .undefined => "NULL"
  | .null => "NULL"
  | .str s => "\"" ++ s ++ "\""
  | v => jsToString v

/-- Property access `o[k]` / `o.get(k)` on the modelled objects: the first
field with the given key, `undefined` when absent or when `o` has no fields. -/
def jsGet (o : JSValue) (k : String) : JSValue :=
  match o with
  | .obj fields => ((fields.find? (fun kv => kv.1 == k)).map Prod.snd).getD .undefined
  | .mapObj entries => ((entries.find? (fun kv => kv.1 == k)).map Prod.snd).getD .undefined
  | _ => .undefined

/-- Keys `Object.keys(o)` of a plain object (its field names in order); other
non-`Map` values have no enumerable keys that the builders care about. -/
def jsObjectKeys : JSValue → List String
  | .obj fields => fields.map Prod.fst
  | _ => []

/-- The helper `getKeysValues(o, keys?)`: for a `Map`, `keys` defaults to the
map's own keys; otherwise `keys` defaults to `Object.keys(o)`; the values are
the lookups of `keys` in `o`, in the order of `keys`. -/
def getKeysValues (o : JSValue) (keys : Option (List String)) :
    List String × List JSValue :=
  match o with
  | .mapObj entries =>
    let ks := keys.getD (entries.map Prod.fst)
    (ks, ks.map (jsGet o))
  | _ =>
    let ks := keys.getD (jsObjectKeys o)
    (ks, ks.map (jsGet o))

/-- The helper `sqlInsertParseObject(row)`: an array row keeps `colNames`
empty and maps the values through `sqlifyValue` positionally; any other row
goes through `getKeysValues`, its keys become the parenthesised column list
and its values the `VALUES` tuple. -/
def sqlInsertParseObject (row : JSValue) : String :=
  match row with
  | .arr xs =>
    "" ++ " VALUES (" ++ String.intercalate "," (xs.map sqlifyValue) ++ ")"
  | _ =>
    let kv := getKeysValues row none
    "(" ++ String.intercalate "," kv.1 ++ ")" ++ " VALUES (" ++
      String.intercalate "," (kv.2.map sqlifyValue) ++ ")"

/-- The SQL text built by `PromisedDatabase.insert`:
`INSERT INTO ${tableName} ${sqlInsertParseObject(row)}`. -/
def insertSql (tableName : String) (row : JSValue) : String :=
  "INSERT INTO " ++ tableName ++ " " ++ sqlInsertParseObject row

/-- The SQL text built by `PromisedDatabase.replace`:
`REPLACE INTO ${tableName} ${sqlInsertParseObject(row)}`. -/
def replaceSql (tableName : String) (row : JSValue) : String :=
  "REPLACE INTO " ++ tableName ++ " " ++ sqlInsertParseObject row

/-- The loop body of `PromisedDatabase.insertMany`: a non-array row is
replaced by `getKeysValues(row, columnNames ?? undefined).values`, then the
row's values are sqlified and joined into one parenthesised tuple. -/
def insertManyTuple (effCols : Option (List String)) (row : JSValue) :
    String :=
  match row with
  | .arr xs => "(" ++ String.intercalate "," (xs.map sqlifyValue) ++ ")"
  | r => "(" ++ String.intercalate ","
      (((getKeysValues r effCols).2).map sqlifyValue) ++ ")"

/-- The SQL text built by `PromisedDatabase.insertMany`: a non-empty
`columnNames` becomes the parenthesised column list and is also handed to
`getKeysValues` for every non-array row (an empty or missing `columnNames`
is normalised to `undefined`); array rows are sqlified positionally; the
tuples are joined after a single `VALUES`. -/
def insertManySql (tableName : String) (columnNames : Option (List String))
    (rows : List JSValue) : String :=
  let colNames : String :=
    match columnNames with
    | some cs => if cs.length ≠ 0 then "(" ++ String.intercalate "," cs ++ ")" else ""
    | none => ""
  let effCols : Option (List String) :=
    match columnNames with
    | some cs => if cs.length ≠ 0 then some cs else none
    | none => none
  let values : List String := rows.map (insertManyTuple effCols)
  "INSERT INTO " ++ tableName ++ " " ++ colNames ++ " VALUES " ++
    String.intercalate "," values

/-- Token standing for one underlying `sqlite3.Database` connection object. -/
structure Conn where
  id : Nat
deriving DecidableEq

/-- The statement context `run` resolves with (the `this` of its completion
callback): last inserted row id and number of affected rows. -/
structure RunInfo where
  lastID : Int
  changes : Int
deriving DecidableEq

/-- How a promise settles: `resolve` with a value or `reject` with an error. -/
inductive Settle (ρ : Type) where
  | resolved (v : ρ)
  | rejected (e : JSErr)

/-- First settlement wins: once a promise is settled, later `resolve` and
`reject` calls are no-ops. -/
def settleFirst {ρ : Type} (st : Option (Settle ρ)) (s : Settle ρ) :
    Option (Settle ρ) :=
  match st with
  | none => some s
  | some s0 => some s0

/-- A request issued to the underlying engine, with the SQL text and the
already-forwarded parameter value where the call takes parameters. -/
inductive EngineReq where
  | run (sql : String) (param : JSValue)
  | get (sql : String) (param : JSValue)
  | all (sql : String) (param : JSValue)
  | each (sql : String) (param : JSValue)
  | exec (sql : String)
  | close

/-- Result of one promise-returning wrapper method: what the promise settles
with, and the request issued to the engine, if any. -/
structure MethodResult (ρ : Type) where
  settled : Settle ρ
  engineCall : Option EngineReq

/-- The parameter-forwarding rule shared by `run`, `get` and `all`:
`const p = params.length === 1 ? params[0] : params`. -/
def forwardParams (params : List JSValue) : JSValue :=
  if params.length = 1 then params.headD .undefined else .arr params

/-- `AsyncDatabase.run(sql, ...params)`, given the outcome `resp` the
engine reports to the completion callback. -/
def AsyncDatabase.run (_db : Conn) (sql : String) (params : List JSValue)
    (resp : Except JSErr RunInfo) : MethodResult RunInfo :=
  { settled := match resp with
      | .error e => .rejected e
      | .ok info => .resolved info
    engineCall := some (.run sql (forwardParams params)) }

/-- `AsyncDatabase.get(sql, ...params)`, given the engine's reported row (or
error); an absent row is the value `undefined`. -/
def AsyncDatabase.get (_db : Conn) (sql : String) (params : List JSValue)
    (resp : Except JSErr JSValue) : MethodResult JSValue :=
  { settled := match resp with
      | .error e => .rejected e
      | .ok row => .resolved row
    engineCall := some (.get sql (forwardParams params)) }

/-- `AsyncDatabase.all(sql, ...params)`, given the engine's reported rows
(or error). -/
def AsyncDatabase.all (_db : Conn) (sql : String) (params : List JSValue)
    (resp : Except JSErr (List JSValue)) : MethodResult (List JSValue) :=
  { settled := match resp with
      | .error e => .rejected e
      | .ok rows => .resolved rows
    engineCall := some (.all sql (forwardParams params)) }

/-- `PromisedDatabase.run`: with no wrapped connection the promise is
rejected with `error_dbNotOpened()` and the engine is not called; otherwise
as `AsyncDatabase.run`. -/
def PromisedDatabase.run (db : Option Conn) (sql : String)
    (params : List JSValue) (resp : Except JSErr RunInfo) :
    MethodResult RunInfo :=
  match db with
  | none => { settled := .rejected error_dbNotOpened, engineCall := none }
  | some c => AsyncDatabase.run c sql params resp

/-- `PromisedDatabase.get`: not-open check, then as `AsyncDatabase.get`. -/
def PromisedDatabase.get (db : Option Conn) (sql : String)
    (params : List JSValue) (resp : Except JSErr JSValue) :
    MethodResult JSValue :=
  match db with
  | none => { settled := .rejected error_dbNotOpened, engineCall := none }
  | some c => AsyncDatabase.get c sql params resp

/-- `PromisedDatabase.all`: not-open check, then as `AsyncDatabase.all`. -/
def PromisedDatabase.all (db : Option Conn) (sql : String)
    (params : List JSValue) (resp : Except JSErr (List JSValue)) :
    MethodResult (List JSValue) :=
  match db with
  | none => { settled := .rejected error_dbNotOpened, engineCall := none }
  | some c => AsyncDatabase.all c sql params resp

/-- `PromisedDatabase.exec(sql)`: not-open check, then the engine's `exec`
with the completion error `resp` (if any) forwarded. -/
def PromisedDatabase.exec (db : Option Conn) (sql : String)
    (resp : Option JSErr) : MethodResult Unit :=
  match db with
  | none => { settled := .rejected error_dbNotOpened, engineCall := none }
  | some _ =>
    { settled := match resp with
        | some e => .rejected e
        | none => .resolved ()
      engineCall := some (.exec sql) }

/-- `PromisedDatabase.close()`: a handle with no wrapped connection resolves
at once without calling the engine; otherwise the engine's `close` callback
error (if any) is forwarded. -/
def PromisedDatabase.close (db : Option Conn) (resp : Option JSErr) :
    MethodResult Unit :=
  match db with
  | none => { settled := .resolved (), engineCall := none }
  | some _ =>
    { settled := match resp with
        | some e => .rejected e
        | none => .resolved ()
      engineCall := some .close }

/-- Result of `PromisedDatabase.open`: the new value of the `_db` field
(assigned synchronously to the freshly constructed connection object) and
how the returned promise settles once the engine's open callback fires. -/
structure OpenResult where
  newDb : Option Conn
  settled : Settle Unit

/-- `PromisedDatabase.open(filename, mode)`: `this._db = new
sqlite3.Database(...)` runs unconditionally; the open callback only decides
how the promise settles (`openErr` is the error it reports, if any). -/
def PromisedDatabase.openDb (conn : Conn) (openErr : Option JSErr) :
    OpenResult :=
  { newDb := some conn
    settled := match openErr with
      | some e => .rejected e
      | none => .resolved () }

/-- One event from the engine's per-row callback of `each`: an
engine-reported error, or a delivered row. -/
inductive RowEvent (R : Type) where
  | err (e : JSErr)
  | row (r : R)

/-- The engine's completion callback of `each`: an error, or a row count. -/
inductive CompleteEvent where
  | err (e : JSErr)
  | ok (count : Nat)

/-- Observable result of an `each` call: how the promise settled, the rows
the caller-supplied callback was invoked on (in delivery order), and the
engine request issued, if any. -/
structure EachResult (R : Type) where
  settled : Option (Settle Nat)
  cbCalls : List R
  engineCall : Option EngineReq

/-- The wrapper's per-row handler of `each`, folded over the engine's row
events from promise state `st`.  An engine row error rejects; otherwise the
caller's callback is invoked on the row inside `try { cb(row) } catch (e) {
reject(e) }` — nothing stops later rows from being handled the same way.
When the callback argument is not a function, invoking it throws a
`TypeError` that the same `catch` turns into a (possibly no-op) rejection.
Returns the final promise state and the rows the caller's callback was
invoked on. -/
def eachEvents {R : Type} (cbArg : Option (R → Except JSErr Unit)) :
    List (RowEvent R) → Option (Settle Nat) → Option (Settle Nat) × List R
  | [], st => (st, [])
  | .err e :: rest, st => eachEvents cbArg rest (settleFirst st (.rejected e))
  | .row r :: rest, st =>
    match cbArg with
    | some f =>
      let st1 := match f r with
        | .ok _ => st
        | .error ex => settleFirst st (.rejected ex)
      let res := eachEvents cbArg rest st1
      (res.1, r :: res.2)
    | none =>
      eachEvents cbArg rest
        (settleFirst st (.rejected (.typeErr "cb is not a function")))

/-- The completion handler of `each`: reject the engine error or resolve
with the row count, subject to first-settlement-wins. -/
def eachComplete (st : Option (Settle Nat)) : CompleteEvent →
    Option (Settle Nat)
  | .err e => settleFirst st (.rejected e)
  | .ok n => settleFirst st (.resolved n)

/-- `AsyncDatabase.each(sql, params, callback)`: no validity or open check;
the engine call is always issued, rows are handled by `eachEvents` and the
completion event settles whatever is still unsettled. -/
def AsyncDatabase.each {R : Type} (_db : Conn) (sql : String)
    (params : JSValue) (cb : R → Except JSErr Unit)
    (events : List (RowEvent R)) (complete : CompleteEvent) : EachResult R :=
  let res := eachEvents (some cb) events none
  { settled := eachComplete res.1 complete
    cbCalls := res.2
    engineCall := some (.each sql params) }

/-- `PromisedDatabase.each(sql, params, cb)`: first `if (!(cb instanceof
Function)) reject(new TypeError(...))` — with no `return`, so execution
continues; then the not-open check (again with no `return` separating it
from the rejection above); with a wrapped connection the engine call is
issued regardless of the callback check's outcome. -/
def PromisedDatabase.each {R : Type} (db : Option Conn) (sql : String)
    (params : JSValue) (cb : Option (R → Except JSErr Unit))
    (events : List (RowEvent R)) (complete : CompleteEvent) : EachResult R :=
  let st0 : Option (Settle Nat) :=
    match cb with
    | some _ => none
    | none => some (.rejected (.typeErr "cb must be a Function."))
  match db with
  | none =>
    { settled := settleFirst st0 (.rejected error_dbNotOpened)
      cbCalls := []
      engineCall := none }
  | some _ =>
    let res := eachEvents cb events st0
    { settled := eachComplete res.1 complete
      cbCalls := res.2
      engineCall := some (.each sql params) }

/-- The value thrown by the builders on failure: `throw { sql, error }`. -/
structure SqlError where
  sql : String
  error : JSErr

/-- A sample per-row callback that throws the value `"boom"` on row `0` and
returns normally on every other row. -/
def cbBoom : Nat → Except JSErr Unit := fun r =>
  if r = 0 then .error (.thrown (.str "boom")) else .ok ()

/-- `PromisedDatabase.insert(tableName, row)`: build the SQL, `await
this.run(sql)` (no parameters), and wrap any rejection as `{ sql, error }`. -/
def PromisedDatabase.insert (db : Option Conn) (tableName : String)
    (row : JSValue) (resp : Except JSErr RunInfo) :
    Except SqlError RunInfo × Option EngineReq :=
  let sql := insertSql tableName row
  let r := PromisedDatabase.run db sql [] resp
  (match r.settled with
    | .rejected e => .error { sql := sql, error := e }
    | .resolved info => .ok info,
   r.engineCall)

/-- `PromisedDatabase.replace(tableName, row)`: as `insert` with the
`REPLACE INTO` statement. -/
def PromisedDatabase.replace (db : Option Conn) (tableName : String)
    (row : JSValue) (resp : Except JSErr RunInfo) :
    Except SqlError RunInfo × Option EngineReq :=
  let sql := replaceSql tableName row
  let r := PromisedDatabase.run db sql [] resp
  (match r.settled with
    | .rejected e => .error { sql := sql, error := e }
    | .resolved info => .ok info,
   r.engineCall)

/-- `PromisedDatabase.insertMany(tableName, columnNames, ...rows)`: build
the multi-row SQL, `await this.run(sql)`, wrap any rejection as
`{ sql, error }`. -/
def PromisedDatabase.insertMany (db : Option Conn) (tableName : String)
    (columnNames : Option (List String)) (rows : List JSValue)
    (resp : Except JSErr RunInfo) :
    Except SqlError RunInfo × Option EngineReq :=
  let sql := insertManySql tableName columnNames rows
  let r := PromisedDatabase.run db sql [] resp
  (match r.settled with
    | .rejected e => .error { sql := sql, error := e }
    | .resolved info => .ok info,
   r.engineCall)

/-- Append-merging helper: fold a proven literal concatenation into a
right-nested string append. -/
theorem strMerge (a b c : String) (h : a ++ b = c) (B : String) :
    a ++ (b ++ B) = c ++ B := by
  rw [← String.append_assoc, h]

/-- A single argument list forwards its element unchanged. -/
theorem forwardParams_single (p : JSValue) : forwardParams [p] = p := rfl

/-- An argument list that is not a singleton forwards as the array of the
arguments. -/
theorem forwardParams_not_single (params : List JSValue)
    (h : params.length ≠ 1) : forwardParams params = .arr params := by
  unfold forwardParams
  exact if_neg h

/-- C1: for every `run`, `get` or `all` call of either wrapper class, a
single parameter argument is forwarded to the underlying engine call
unchanged, while zero or two-or-more parameter arguments are forwarded as
the ordered sequence (array) of those arguments. -/
theorem C1_param_forwarding (conn : Conn) (sql : String) (p : JSValue)
    (params : List JSValue) (hp : params.length ≠ 1)
    (respR : Except JSErr RunInfo) (respG : Except JSErr JSValue)
    (respA : Except JSErr (List JSValue)) :
    (AsyncDatabase.run conn sql [p] respR).engineCall = some (.run sql p) ∧
    (AsyncDatabase.get conn sql [p] respG).engineCall = some (.get sql p) ∧
    (AsyncDatabase.all conn sql [p] respA).engineCall = some (.all sql p) ∧
    (PromisedDatabase.run (some conn) sql [p] respR).engineCall =
      some (.run sql p) ∧
    (PromisedDatabase.get (some conn) sql [p] respG).engineCall =
      some (.get sql p) ∧
    (PromisedDatabase.all (some conn) sql [p] respA).engineCall =
      some (.all sql p) ∧
    (AsyncDatabase.run conn sql params respR).engineCall =
      some (.run sql (.arr params)) ∧
    (AsyncDatabase.get conn sql params respG).engineCall =
      some (.get sql (.arr params)) ∧
    (AsyncDatabase.all conn sql params respA).engineCall =
      some (.all sql (.arr params)) ∧
    (PromisedDatabase.run (some conn) sql params respR).engineCall =
      some (.run sql (.arr params)) ∧
    (PromisedDatabase.get (some conn) sql params respG).engineCall =
      some (.get sql (.arr params)) ∧
    (PromisedDatabase.all (some conn) sql params respA).engineCall =
      some (.all sql (.arr params)) := by
  have h2 := forwardParams_not_single params hp
  refine ⟨rfl, rfl, rfl, rfl, rfl, rfl, ?_, ?_, ?_, ?_, ?_, ?_⟩ <;>
    simp [AsyncDatabase.run, AsyncDatabase.get, AsyncDatabase.all,
      PromisedDatabase.run, PromisedDatabase.get, PromisedDatabase.all, h2]

/-- Witness for C1 at a two-argument call of `AsyncDatabase.run`. -/
theorem C1_param_forwarding_witness :
    ([JSValue.num 1, JSValue.num 2].length ≠ 1) ∧
    (AsyncDatabase.run ⟨0⟩ "S" [JSValue.num 1, JSValue.num 2]
        (.ok ⟨0, 0⟩)).engineCall =
      some (.run "S" (.arr [JSValue.num 1, JSValue.num 2])) :=
  ⟨by decide,
    (C1_param_forwarding ⟨0⟩ "S" (.num 1) [.num 1, .num 2] (by decide)
      (.ok ⟨0, 0⟩) (.ok .undefined) (.ok [])).2.2.2.2.2.2.1⟩

/-- C3: every data operation (`run`, `get`, `all`, `each`, `exec`) of
`PromisedDatabase` invoked while the `_db` field holds no wrapped connection
settles by rejecting with the dedicated "The database is not open." error,
whatever the engine would have answered, and issues no engine request. -/
theorem C3_not_open_rejects {R : Type} (sql : String)
    (params : List JSValue) (respR : Except JSErr RunInfo)
    (respG : Except JSErr JSValue) (respA : Except JSErr (List JSValue))
    (respE : Option JSErr) (eparams : JSValue)
    (f : R → Except JSErr Unit) (events : List (RowEvent R))
    (complete : CompleteEvent) :
    PromisedDatabase.run none sql params respR =
      ⟨.rejected error_dbNotOpened, none⟩ ∧
    PromisedDatabase.get none sql params respG =
      ⟨.rejected error_dbNotOpened, none⟩ ∧
    PromisedDatabase.all none sql params respA =
      ⟨.rejected error_dbNotOpened, none⟩ ∧
    PromisedDatabase.exec none sql respE =
      ⟨.rejected error_dbNotOpened, none⟩ ∧
    PromisedDatabase.each none sql eparams (some f) events complete =
      ⟨some (.rejected error_dbNotOpened), [], none⟩ :=
  ⟨rfl, rfl, rfl, rfl, rfl⟩

/-- C5: `PromisedDatabase.open` assigns the wrapped connection field
synchronously, regardless of the error the engine's open callback reports;
hence after a rejected `open`, `run`/`get`/`all`/`each`/`exec` behave
exactly as on an open handle — the call is forwarded to the engine, not
rejected with the "not open" usage error. -/
theorem C5_open_assigns_db_despite_error {R : Type} (conn : Conn)
    (e : JSErr) (sql : String) (params : List JSValue)
    (respR : Except JSErr RunInfo) (respG : Except JSErr JSValue)
    (respA : Except JSErr (List JSValue)) (respE : Option JSErr)
    (eparams : JSValue) (f : R → Except JSErr Unit)
    (events : List (RowEvent R)) (complete : CompleteEvent) :
    (PromisedDatabase.openDb conn (some e)).newDb = some conn ∧
    (PromisedDatabase.openDb conn (some e)).settled = .rejected e ∧
    PromisedDatabase.run (PromisedDatabase.openDb conn (some e)).newDb
        sql params respR = AsyncDatabase.run conn sql params respR ∧
    PromisedDatabase.get (PromisedDatabase.openDb conn (some e)).newDb
        sql params respG = AsyncDatabase.get conn sql params respG ∧
    PromisedDatabase.all (PromisedDatabase.openDb conn (some e)).newDb
        sql params respA = AsyncDatabase.all conn sql params respA ∧
    (PromisedDatabase.exec (PromisedDatabase.openDb conn (some e)).newDb
        sql respE).engineCall = some (.exec sql) ∧
    (PromisedDatabase.each (PromisedDatabase.openDb conn (some e)).newDb
        sql eparams (some f) events complete).engineCall =
      some (.each sql eparams) :=
  ⟨rfl, rfl, rfl, rfl, rfl, rfl, rfl⟩

/-- C6: the builders' value serializer emits `undefined`/`null` as the SQL
literal `NULL`, strings in double quotes, and every other scalar value via
its default textual representation. -/
theorem C6_sqlify_values (s : String) (b : Bool) (n : Int) :
    sqlifyValue .null = "NULL" ∧
    sqlifyValue .undefined = "NULL" ∧
    sqlifyValue (.str s) = "\"" ++ s ++ "\"" ∧
    sqlifyValue (.bool b) = jsToString (.bool b) ∧
    sqlifyValue (.num n) = jsToString (.num n) :=
  ⟨rfl, rfl, rfl, rfl, rfl⟩

/-- C9: when the underlying `run` fails with an engine-reported error, the
`insert`, `replace` and `insertMany` builders all fail with the pair of the
generated SQL text and that original error. -/
theorem C9_builder_error_wrapping (conn : Conn) (t : String)
    (row : JSValue) (cols : Option (List String)) (rows : List JSValue)
    (e : JSErr) :
    (PromisedDatabase.insert (some conn) t row (.error e)).1 =
      .error ⟨insertSql t row, e⟩ ∧
    (PromisedDatabase.replace (some conn) t row (.error e)).1 =
      .error ⟨replaceSql t row, e⟩ ∧
    (PromisedDatabase.insertMany (some conn) t cols rows (.error e)).1 =
      .error ⟨insertManySql t cols rows, e⟩ :=
  ⟨rfl, rfl, rfl⟩

/-- C10: `PromisedDatabase.close` on a handle that was never opened resolves
immediately with no value and does not invoke the engine's close
primitive, whatever the engine's close callback would have reported. -/
theorem C10_close_never_opened (resp : Option JSErr) :
    PromisedDatabase.close none resp = ⟨.resolved (), none⟩ :=
  rfl

/-- Looking every key of an association list up in that list returns the
values in key order, provided the keys are distinct. -/
theorem map_lookup_eq_snd :
    ∀ (l : List (String × JSValue)), (l.map Prod.fst).Nodup →
    (l.map Prod.fst).map
      (fun k => ((l.find? (fun kv => kv.1 == k)).map Prod.snd).getD .undefined) =
    l.map Prod.snd := by
  intro l
  induction l with
  | nil => intro _; rfl
  | cons kv rest ih =>
    intro h
    obtain ⟨k, v⟩ := kv
    simp only [List.map_cons, List.nodup_cons] at h ⊢
    have tl : (rest.map Prod.fst).map
        (fun k' => ((((k, v) :: rest).find? (fun kv => kv.1 == k')).map
          Prod.snd).getD JSValue.undefined) =
        (rest.map Prod.fst).map
        (fun k' => ((rest.find? (fun kv => kv.1 == k')).map
          Prod.snd).getD JSValue.undefined) := by
      apply List.map_congr_left
      intro a ha
      rw [List.find?_cons_of_neg]
      simp only [beq_iff_eq]
      intro heq
      exact h.1 (heq ▸ ha)
    rw [List.find?_cons_of_pos _ (by simp), tl, ih h.2]
    rfl

/-- Object field lookup over the object's own keys yields the field values
in field order, provided the keys are distinct. -/
theorem map_jsGet_obj (l : List (String × JSValue))
    (h : (l.map Prod.fst).Nodup) :
    (l.map Prod.fst).map (jsGet (.obj l)) = l.map Prod.snd := by
  rw [← map_lookup_eq_snd l h]
  apply List.map_congr_left
  intro a _
  rfl

/-- Map entry lookup over the map's own keys yields the entry values in
entry order, provided the keys are distinct. -/
theorem map_jsGet_mapObj (l : List (String × JSValue))
    (h : (l.map Prod.fst).Nodup) :
    (l.map Prod.fst).map (jsGet (.mapObj l)) = l.map Prod.snd := by
  rw [← map_lookup_eq_snd l h]
  apply List.map_congr_left
  intro a _
  rfl

/-- With explicitly supplied keys, `getKeysValues` returns exactly the
lookups of those keys, in the supplied order, for every row shape. -/
theorem getKeysValues_some (r : JSValue) (cs : List String) :
    (getKeysValues r (some cs)).2 = cs.map (jsGet r) := by
  cases r <;> rfl

/-- C7: `insert`/`replace` with an array row omit the column-name list and
use the values positionally; with a plain-object or `Map` row (with its
keys distinct, as JS guarantees) they emit the column-name list in the
mapping's own key order with the corresponding values in the same order. -/
theorem C7_insert_row_shapes (t : String) (xs : List JSValue)
    (fields entries : List (String × JSValue))
    (hf : (fields.map Prod.fst).Nodup)
    (he : (entries.map Prod.fst).Nodup) :
    insertSql t (.arr xs) =
      "INSERT INTO " ++ t ++ "  VALUES (" ++
        String.intercalate "," (xs.map sqlifyValue) ++ ")" ∧
    replaceSql t (.arr xs) =
      "REPLACE INTO " ++ t ++ "  VALUES (" ++
        String.intercalate "," (xs.map sqlifyValue) ++ ")" ∧
    insertSql t (.obj fields) =
      "INSERT INTO " ++ t ++ " (" ++
        String.intercalate "," (fields.map Prod.fst) ++ ") VALUES (" ++
        String.intercalate "," ((fields.map Prod.snd).map sqlifyValue) ++
        ")" ∧
    replaceSql t (.obj fields) =
      "REPLACE INTO " ++ t ++ " (" ++
        String.intercalate "," (fields.map Prod.fst) ++ ") VALUES (" ++
        String.intercalate "," ((fields.map Prod.snd).map sqlifyValue) ++
        ")" ∧
    insertSql t (.mapObj entries) =
      "INSERT INTO " ++ t ++ " (" ++
        String.intercalate "," (entries.map Prod.fst) ++ ") VALUES (" ++
        String.intercalate "," ((entries.map Prod.snd).map sqlifyValue) ++
        ")" ∧
    replaceSql t (.mapObj entries) =
      "REPLACE INTO " ++ t ++ " (" ++
        String.intercalate "," (entries.map Prod.fst) ++ ") VALUES (" ++
        String.intercalate "," ((entries.map Prod.snd).map sqlifyValue) ++
        ")" := by
  refine ⟨?_, ?_, ?_, ?_, ?_, ?_⟩
  · simp only [insertSql, sqlInsertParseObject, String.append_assoc,
      String.empty_append]
    rw [strMerge " " " VALUES (" "  VALUES (" rfl]
  · simp only [replaceSql, sqlInsertParseObject, String.append_assoc,
      String.empty_append]
    rw [strMerge " " " VALUES (" "  VALUES (" rfl]
  · simp only [insertSql, sqlInsertParseObject, getKeysValues,
      jsObjectKeys, Option.getD, String.append_assoc]
    rw [map_jsGet_obj fields hf]
    rw [strMerge " " "(" " (" rfl, strMerge ")" " VALUES (" ") VALUES (" rfl]
  · simp only [replaceSql, sqlInsertParseObject, getKeysValues,
      jsObjectKeys, Option.getD, String.append_assoc]
    rw [map_jsGet_obj fields hf]
    rw [strMerge " " "(" " (" rfl, strMerge ")" " VALUES (" ") VALUES (" rfl]
  · simp only [insertSql, sqlInsertParseObject, getKeysValues,
      Option.getD, String.append_assoc]
    rw [map_jsGet_mapObj entries he]
    rw [strMerge " " "(" " (" rfl, strMerge ")" " VALUES (" ") VALUES (" rfl]
  · simp only [replaceSql, sqlInsertParseObject, getKeysValues,
      Option.getD, String.append_assoc]
    rw [map_jsGet_mapObj entries he]
    rw [strMerge " " "(" " (" rfl, strMerge ")" " VALUES (" ") VALUES (" rfl]

/-- Witness for C7 at a concrete object row. -/
theorem C7_insert_row_shapes_witness :
    (([("a", JSValue.num 1), ("b", JSValue.str "x")].map Prod.fst).Nodup) ∧
    (([("c", JSValue.null)].map Prod.fst).Nodup) ∧
    insertSql "t" (.obj [("a", .num 1), ("b", .str "x")]) =
      "INSERT INTO t (a,b) VALUES (1,\"x\")" :=
  ⟨by decide, by decide,
    ((C7_insert_row_shapes "t" [.num 1] [("a", .num 1), ("b", .str "x")]
      [("c", .null)] (by decide) (by decide)).2.2.1).trans rfl⟩

/-- C8: with a supplied non-empty `columnNames`, `insertMany` names exactly
those columns, serializes each mapping row by looking the supplied column
names up in the row (in the supplied order), and serializes every array row
positionally, ignoring `columnNames`. -/
theorem C8_insertMany_columns (t : String) (cs : List String)
    (hcs : cs ≠ []) (rows xs : List JSValue)
    (fields entries : List (String × JSValue)) :
    insertManySql t (some cs) rows =
      "INSERT INTO " ++ t ++ " (" ++ String.intercalate "," cs ++
        ") VALUES " ++
        String.intercalate "," (rows.map (insertManyTuple (some cs))) ∧
    insertManyTuple (some cs) (.arr xs) =
      "(" ++ String.intercalate "," (xs.map sqlifyValue) ++ ")" ∧
    insertManyTuple (some cs) (.obj fields) =
      "(" ++ String.intercalate ","
        ((cs.map (jsGet (.obj fields))).map sqlifyValue) ++ ")" ∧
    insertManyTuple (some cs) (.mapObj entries) =
      "(" ++ String.intercalate ","
        ((cs.map (jsGet (.mapObj entries))).map sqlifyValue) ++ ")" := by
  have hlen : cs.length ≠ 0 := fun h0 => hcs (List.length_eq_zero.mp h0)
  refine ⟨?_, rfl, rfl, rfl⟩
  simp only [insertManySql, ne_eq, hlen, not_false_eq_true, if_true,
    String.append_assoc]
  rw [strMerge " " "(" " (" rfl]
  rw [strMerge ")" " VALUES " ") VALUES " rfl]

/-- Witness for C8 at one mapping row and one array row. -/
theorem C8_insertMany_columns_witness :
    (["name", "age"] ≠ ([] : List String)) ∧
    insertManySql "foo" (some ["name", "age"])
        [.obj [("name", .str "Alice"), ("age", .num 20)],
         .arr [.str "Bob", .num 32]] =
      "INSERT INTO foo (name,age) VALUES (\"Alice\",20),(\"Bob\",32)" :=
  ⟨by decide,
    (C8_insertMany_columns "foo" ["name", "age"] (by decide)
      [.obj [("name", .str "Alice"), ("age", .num 20)],
       .arr [.str "Bob", .num 32]] [] [] []).1.trans rfl⟩

/-- Once the promise of `each` is settled, no later row event changes the
settlement. -/
theorem eachEvents_fst_frozen {R : Type}
    (cbArg : Option (R → Except JSErr Unit)) (s : Settle Nat) :
    ∀ events : List (RowEvent R), (eachEvents cbArg events (some s)).1 = some s := by
  intro events
  induction events with
  | nil => rfl
  | cons ev rest ih =>
    cases ev with
    | err e => simpa [eachEvents, settleFirst] using ih
    | row r =>
      cases cbArg with
      | none => simpa [eachEvents, settleFirst] using ih
      | some f =>
        cases hfr : f r with
        | ok u => simpa [eachEvents, settleFirst, hfr] using ih
        | error ex => simpa [eachEvents, settleFirst, hfr] using ih

/-- A prefix of delivered rows on which the callback returns normally leaves
the promise state untouched and invokes the callback on each row. -/
theorem eachEvents_ok_prefix {R : Type} (f : R → Except JSErr Unit) :
    ∀ (pre : List R), (∀ x ∈ pre, f x = .ok ()) → ∀ st,
    eachEvents (some f) (pre.map .row) st = (st, pre) := by
  intro pre
  induction pre with
  | nil => intro _ st; rfl
  | cons a rest ih =>
    intro h st
    have ha : f a = .ok () := h a (by simp)
    simp [eachEvents, ha, ih (fun x hx => h x (by simp [hx])) st]

/-- Whatever the callback returns, every delivered row leads to one callback
invocation: the row handler never stops invoking the callback. -/
theorem eachEvents_calls_all {R : Type} (f : R → Except JSErr Unit) :
    ∀ (rs : List R) (st : Option (Settle Nat)),
    (eachEvents (some f) (rs.map .row) st).2 = rs := by
  intro rs
  induction rs with
  | nil => intro st; rfl
  | cons a rest ih =>
    intro st
    cases hfa : f a with
    | ok u => simp [eachEvents, hfa, ih]
    | error ex => simp [eachEvents, hfa, ih]

/-- The completion event cannot change an already-settled promise. -/
theorem eachComplete_frozen (s : Settle Nat) (c : CompleteEvent) :
    eachComplete (some s) c = some s := by
  cases c <;> rfl

/-- Processing a concatenation of row events processes the first part and
continues on the second from the resulting promise state. -/
theorem eachEvents_append {R : Type}
    (cbArg : Option (R → Except JSErr Unit))
    (es1 es2 : List (RowEvent R)) (st : Option (Settle Nat)) :
    eachEvents cbArg (es1 ++ es2) st =
      ((eachEvents cbArg es2 (eachEvents cbArg es1 st).1).1,
       (eachEvents cbArg es1 st).2 ++
         (eachEvents cbArg es2 (eachEvents cbArg es1 st).1).2) := by
  induction es1 generalizing st with
  | nil => simp [eachEvents]
  | cons ev rest ih =>
    cases ev with
    | err e => simp [eachEvents, ih]
    | row r =>
      cases cbArg with
      | none => simp [eachEvents, ih]
      | some f => cases hfr : f r <;> simp [eachEvents, hfr, ih]

/-- C2 (amended): if the per-row callback of `each` first throws on row `r`
(after returning normally on all earlier rows), the promise rejects with
exactly that thrown value — but the callback is still invoked on every row
the engine delivers afterwards; rejection does not short-circuit row
delivery. -/
theorem C2_each_throw_amended {R : Type} (conn : Conn) (sql : String)
    (params : JSValue) (f : R → Except JSErr Unit)
    (pre post : List R) (r : R) (e : JSErr) (complete : CompleteEvent)
    (hpre : ∀ x ∈ pre, f x = .ok ()) (hr : f r = .error e) :
    (AsyncDatabase.each conn sql params f
        ((pre ++ r :: post).map .row) complete).settled =
      some (.rejected e) ∧
    (AsyncDatabase.each conn sql params f
        ((pre ++ r :: post).map .row) complete).cbCalls =
      pre ++ r :: post := by
  have h1 := eachEvents_ok_prefix f pre hpre none
  have hfrozen := eachEvents_fst_frozen (some f) (.rejected e)
    (post.map .row)
  have hcalls := eachEvents_calls_all f post
    (some (.rejected e))
  constructor <;>
    simp [AsyncDatabase.each, List.map_append, eachEvents_append, h1,
      eachEvents, hr, settleFirst, hfrozen, hcalls, eachComplete_frozen]

/-- C2 (counterexample): with two delivered rows and a callback that throws
on the first, the promise rejects with the thrown value, yet the callback is
also invoked on the second row — refuting the claim that no further per-row
callback invocation occurs after the one that threw. -/
theorem C2_each_counterexample :
    cbBoom 0 = .error (.thrown (.str "boom")) ∧
    (AsyncDatabase.each ⟨0⟩ "SELECT v FROM t" (.arr []) cbBoom
        [.row 0, .row 1] (.ok 2)).settled =
      some (.rejected (.thrown (.str "boom"))) ∧
    (AsyncDatabase.each ⟨0⟩ "SELECT v FROM t" (.arr []) cbBoom
        [.row 0, .row 1] (.ok 2)).cbCalls = [0, 1] :=
  ⟨rfl, rfl, rfl⟩

/-- Witness for the amended C2 at a concrete two-row trace. -/
theorem C2_each_throw_amended_witness :
    (∀ x ∈ ([] : List Nat), cbBoom x = .ok ()) ∧
    cbBoom 0 = .error (.thrown (.str "boom")) ∧
    (AsyncDatabase.each ⟨0⟩ "S" (.arr []) cbBoom
        (([] ++ 0 :: [1]).map .row) (.ok 2)).settled =
      some (.rejected (.thrown (.str "boom"))) :=
  ⟨by simp, rfl,
    (C2_each_throw_amended ⟨0⟩ "S" (.arr []) cbBoom [] [1] 0
      (.thrown (.str "boom")) (.ok 2) (by simp) rfl).1⟩

/-- C4 (counterexample): on an open handle, `each` with a non-function
callback argument does reject with a `TypeError`, but the engine call is
still issued (`reject` is not followed by a `return`) — refuting the claim
that no call is issued to the underlying engine. -/
theorem C4_each_badcb_counterexample :
    (PromisedDatabase.each (some ⟨0⟩) "SELECT * FROM t" (.num 1)
        (none : Option (Nat → Except JSErr Unit)) [] (.ok 0)).settled =
      some (.rejected (.typeErr "cb must be a Function.")) ∧
    (PromisedDatabase.each (some ⟨0⟩) "SELECT * FROM t" (.num 1)
        (none : Option (Nat → Except JSErr Unit)) [] (.ok 0)).engineCall =
      some (.each "SELECT * FROM t" (.num 1)) ∧
    (PromisedDatabase.each (some ⟨0⟩) "SELECT * FROM t" (.num 1)
        (none : Option (Nat → Except JSErr Unit)) [] (.ok 0)).engineCall ≠
      none :=
  ⟨rfl, rfl, fun h => Option.noConfusion h⟩

/-- C4 (amended): `each` with a missing or non-invocable callback always
rejects with the usage `TypeError`; no engine call is issued when the handle
is not open, but on an open handle the engine call is still issued (its
effects can no longer settle the already-rejected promise). -/
theorem C4_each_badcb_amended {R : Type} (sql : String) (params : JSValue)
    (events : List (RowEvent R)) (complete : CompleteEvent) (conn : Conn) :
    (PromisedDatabase.each none sql params
        (none : Option (R → Except JSErr Unit)) events complete).settled =
      some (.rejected (.typeErr "cb must be a Function.")) ∧
    (PromisedDatabase.each none sql params
        (none : Option (R → Except JSErr Unit)) events complete).engineCall =
      none ∧
    (PromisedDatabase.each (some conn) sql params
        (none : Option (R → Except JSErr Unit)) events complete).settled =
      some (.rejected (.typeErr "cb must be a Function.")) ∧
    (PromisedDatabase.each (some conn) sql params
        (none : Option (R → Except JSErr Unit)) events complete).engineCall =
      some (.each sql params) := by
  refine ⟨rfl, rfl, ?_, rfl⟩
  simp [PromisedDatabase.each, eachEvents_fst_frozen, eachComplete_frozen]
